import Mathlib

/-!
Verification of the recipe-app repository (Django REST framework service).

The development shallowly embeds the request-handling logic of
`src/app/recipe/views.py` and the data model it operates on.  Database
tables are lists of records; querysets are lists; the Django ORM
operations used by the views (`filter`, `order_by`, `distinct`) are
embedded with their SQL semantics, and a `filter()` call whose keyword
is not a valid field or lookup path — as with the single-underscore
`tags_id_in` / `ingredients_id_in` keywords at views.py lines 58 and 61,
which lack the double-underscore lookup separator — raises `FieldError`.
Python exceptions are modelled with `Except`.  Parts of the repository
that the claims depend on but whose source is not present (the
serializers, the DRF authentication and dispatch machinery) are modelled
from the specification and are marked as such in their doc comments.
-/

/-- Errors a request handler can produce.  `valueError` is the Python
`ValueError` raised by `int()` on a malformed literal; `fieldError` is
the Django `FieldError` raised when a `filter()` keyword resolves to no
field or lookup path of the model; `validationError` is a DRF validation
failure that would surface as HTTP 400.  The embedded view code never
produces `validationError`; the constructor exists so that outcome is
distinguishable from the unhandled exceptions. -/
inductive PyErr where
  | valueError
  | fieldError
  | validationError
deriving DecidableEq, Repr

/-- Row of the `Recipe` table (`core.models.Recipe`).  `user` is the id of
the owning user; `tags` and `ingredients` are the association sets of the
many-to-many relations, as lists of related row ids.  `price` is kept in
fixed-point minor units. -/
structure Recipe where
  id : Nat
  title : String
  time_minutes : Nat
  price : Int
  description : String
  link : String
  user : Nat
  tags : List Nat
  ingredients : List Nat
deriving DecidableEq, Repr

/-- Row of the `Tag` or `Ingredient` table (`core.models.Tag`,
`core.models.Ingredient`): both models carry exactly a name and an owner,
and the two viewsets share `BaseRecipeAttrViewSet`, so one record type
serves both tables (with separate stores). -/
structure RecipeAttr where
  id : Nat
  name : String
  user : Nat
deriving DecidableEq, Repr

/-- Value of a decimal digit character, `none` on a non-digit. -/
def decDigit? (c : Char) : Option Nat :=
  if c.isDigit then some (c.toNat - 48) else none

/-- Value of a nonempty all-digit character list, `none` otherwise. -/
def decNat? (cs : List Char) : Option Nat :=
  match cs with
  | [] => none
  | _ => cs.foldlM (fun a c => (decDigit? c).map (fun d => a * 10 + d)) 0

/-- Whitespace stripped from both ends of a character list (the
`int()` builtin ignores surrounding whitespace). -/
def trimChars (cs : List Char) : List Char :=
  ((cs.dropWhile Char.isWhitespace).reverse.dropWhile Char.isWhitespace).reverse

/-- Python `int(s)` on a string: optional surrounding whitespace, optional
sign, then a nonempty digit run; anything else raises `ValueError`. -/
def pyInt (s : String) : Except PyErr Int :=
  match trimChars s.toList with
  | '-' :: rest =>
      match decNat? rest with
      | some n => .ok (-(n : Int))
      | none => .error .valueError
  | '+' :: rest =>
      match decNat? rest with
      | some n => .ok (n : Int)
      | none => .error .valueError
  | cs =>
      match decNat? cs with
      | some n => .ok (n : Int)
      | none => .error .valueError

/-- Splitting of a character list at every comma (Python
`s.split(a_comma)`): the split is on every occurrence, and consecutive or
trailing commas yield empty pieces. -/
def splitCommaAux : List Char → List Char → List (List Char)
  | [], acc => [acc.reverse]
  | c :: cs, acc =>
    if c = ',' then acc.reverse :: splitCommaAux cs []
    else splitCommaAux cs (c :: acc)

/-- Python `qs.split(a_comma)` on a string. -/
def splitComma (s : String) : List String :=
  (splitCommaAux s.toList []).map (fun cs => cs.asString)

/-- Embeds `RecipeViewSet._params_to_ints` (views.py lines 47-49):
`[int(str_id) for str_id in qs.split(a_comma)]`.  A token that is not an
integer literal makes the whole comprehension raise `ValueError`. -/
def params_to_ints (qs : String) : Except PyErr (List Int) :=
  (splitComma qs).mapM pyInt

/-- Python truthiness of `request.query_params.get(k)`: the value is
`None` when the parameter is absent, and a string otherwise; it is truthy
exactly when it is a nonempty string. -/
def truthy : Option String → Bool
  | none => false
  | some s => !s.isEmpty

/-- An authenticated list request on `/recipes/`: the resolved caller and
the raw `tags` / `ingredients` query parameters (absent = `none`). -/
structure RecipeListRequest where
  user : Nat
  tags : Option String
  ingredients : Option String
deriving DecidableEq, Repr

/-- Insertion into a list kept in descending `key` order. -/
def insertDesc {α β : Type} [LinearOrder β] (key : α → β) (x : α) :
    List α → List α
  | [] => [x]
  | y :: ys => if key y ≤ key x then x :: y :: ys else y :: insertDesc key x ys

/-- SQL `ORDER BY key DESC` (Django `order_by("-field")`), as an insertion
sort into descending key order. -/
def orderByDesc {α β : Type} [LinearOrder β] (key : α → β) : List α → List α
  | [] => []
  | x :: xs => insertDesc key x (orderByDesc key xs)

/-- One `tags`/`ingredients` filtering step of the queryset construction
(views.py lines 56-61): if the parameter is truthy, convert it with
`_params_to_ints` (propagating `ValueError`), then call
`queryset.filter(tags_id_in=tag_ids)` resp.
`queryset.filter(ingredients_id_in=ingredient_ids)`.  Both keywords are
written with single underscores, not the double-underscore lookup
separator, so Django resolves neither `tags_id_in` nor
`ingredients_id_in` to any field or lookup path of `Recipe` and the
`filter()` call itself raises `FieldError`; the converted ids are never
used.  When the parameter is absent or empty the queryset is returned
unchanged. -/
def applyM2MFilter (param : Option String) (queryset : List Recipe) :
    Except PyErr (List Recipe) :=
  if truthy param then
    match params_to_ints (param.getD "") with
    | .ok _ => .error .fieldError
    | .error e => .error e
  else .ok queryset

namespace RecipeViewSet

/-- Embeds `RecipeViewSet.get_queryset` (views.py lines 51-65): start from
all recipes, run the `tags` filtering step when that parameter is truthy
(which raises: the `tags_id_in` keyword at line 58 is an invalid lookup),
then the `ingredients` step likewise (line 61, same defect), then
restrict to rows owned by the authenticated user, order by id descending
(`order_by("-id")`), and deduplicate (`distinct()`).  The success path is
therefore only reachable when both parameters are absent or empty. -/
def get_queryset (db : List Recipe) (req : RecipeListRequest) :
    Except PyErr (List Recipe) :=
  match applyM2MFilter req.tags db with
  | .error e => .error e
  | .ok q1 =>
    match applyM2MFilter req.ingredients q1 with
    | .error e => .error e
    | .ok q2 =>
      .ok (List.dedup (orderByDesc Recipe.id
        (q2.filter (fun r => r.user == req.user))))

/-- Modelled from the spec: DRF `GenericAPIView.get_object` (framework
code, not in the sources) looks the detail-route pk up inside
`get_queryset()`, so retrieve/update/delete can only reach rows the
queryset exposes; a miss is a 404. -/
def get_object (db : List Recipe) (req : RecipeListRequest) (pk : Nat) :
    Except PyErr (Option Recipe) :=
  match get_queryset db req with
  | .error e => .error e
  | .ok l => .ok (l.find? (fun r => r.id == pk))

end RecipeViewSet

namespace BaseRecipeAttrViewSet

/-- Embeds `BaseRecipeAttrViewSet.get_queryset` (views.py lines 87-89):
`self.queryset.filter(user=self.request.user).order_by("-name")` — rows
owned by the caller, ordered by name descending.  The sort key is the
character sequence of the name: lexicographic character order is exactly
the order on `String` (`String.le_iff_toList_le`). -/
def get_queryset (db : List RecipeAttr) (user : Nat) : List RecipeAttr :=
  orderByDesc (fun a => a.name.toList) (db.filter (fun a => a.user == user))

/-- Modelled from the spec: DRF `get_object` for the tag/ingredient
detail routes resolves the pk inside `get_queryset()`. -/
def get_object (db : List RecipeAttr) (user : Nat) (pk : Nat) :
    Option RecipeAttr :=
  (get_queryset db user).find? (fun a => a.id == pk)

end BaseRecipeAttrViewSet

/-- Serializer classes named by `RecipeViewSet` (recipe/serializers.py is
not among the sources; only the class names appear in views.py). -/
inductive SerializerClass where
  | RecipeSerializer
  | RecipeDetailSerializer
deriving DecidableEq, Repr

/-- Modelled from the spec: the field projection of each serializer class
(serializers.py is not among the sources).  The list serializer is the
reduced summary projection without `description` and without the full
tag/ingredient detail; the detail serializer is the full projection
including `description`, `tags` and `ingredients`. -/
def serializerFields : SerializerClass → List String
  | .RecipeSerializer => ["id", "title", "time_minutes", "price", "link"]
  | .RecipeDetailSerializer =>
      ["id", "title", "time_minutes", "price", "link",
       "description", "tags", "ingredients"]

namespace RecipeViewSet

/-- Embeds the `serializer_class` class attribute (views.py line 42). -/
def serializer_class : SerializerClass := .RecipeDetailSerializer

/-- Embeds `RecipeViewSet.get_serializer_class` (views.py lines 68-73):
the `list` action uses `RecipeSerializer`, every other action falls back
to the `serializer_class` attribute. -/
def get_serializer_class (action : String) : SerializerClass :=
  if action == "list" then SerializerClass.RecipeSerializer
  else serializer_class

end RecipeViewSet

/-- Create payload for a recipe, as validated field values.  `user`
records an owner value smuggled into the payload, when one was sent. -/
structure RecipePayload where
  title : String
  time_minutes : Nat
  price : Int
  description : String
  link : String
  user : Option Nat
deriving DecidableEq, Repr

/-- Modelled from the spec: `serializer.save(user=...)` on the recipe
serializer (serializers.py is not among the sources).  The model instance
is built from the validated payload fields plus the keyword overrides the
view passes to `save`; the owner field of the serializer is read-only, so
an owner value inside the payload never reaches validated data and the
stored owner is exactly the keyword argument. -/
def serializer_save (payload : RecipePayload) (user : Nat) (newId : Nat) :
    Recipe :=
  { id := newId, title := payload.title, time_minutes := payload.time_minutes,
    price := payload.price, description := payload.description,
    link := payload.link, user := user, tags := [], ingredients := [] }

/-- Embeds `RecipeViewSet.perform_create` (views.py lines 75-77):
`serializer.save(user=self.request.user)`. -/
def RecipeViewSet.perform_create (payload : RecipePayload)
    (requestUser : Nat) (newId : Nat) : Recipe :=
  serializer_save payload requestUser newId

/-- Modelled from the spec: token authentication.  A token table maps
credential values to user ids; a request credential resolves to a user
exactly when it is present and in the table. -/
def authenticate (tokens : List (Nat × Nat)) (cred : Option Nat) :
    Option Nat :=
  cred.bind (fun t => (tokens.find? (fun p => p.1 == t)).map Prod.snd)

/-- HTTP outcomes the modelled endpoints distinguish. -/
inductive HttpResponse (α : Type) where
  | ok (body : List α)
  | noContent
  | badRequest
  | unauthorized
  | notFound
  | serverError
deriving DecidableEq, Repr

/-- Modelled from the spec: DRF dispatch for `GET /recipes/` under
`TokenAuthentication` + `IsAuthenticated` (framework code, not in the
sources).  A request whose credential does not resolve is answered 401
before the view code runs; the second component records whether the core
queryset logic ran. -/
def recipe_list_dispatch (tokens : List (Nat × Nat)) (db : List Recipe)
    (cred : Option Nat) (tagsP ingredientsP : Option String) :
    HttpResponse Recipe × Bool :=
  match authenticate tokens cred with
  | none => (.unauthorized, false)
  | some u =>
    match RecipeViewSet.get_queryset db ⟨u, tagsP, ingredientsP⟩ with
    | .ok l => (.ok l, true)
    | .error _ => (.serverError, true)

/-- Modelled from the spec: DRF dispatch for `GET /tags/` and
`GET /ingredients/` under the same authentication classes. -/
def attr_list_dispatch (tokens : List (Nat × Nat)) (db : List RecipeAttr)
    (cred : Option Nat) : HttpResponse RecipeAttr × Bool :=
  match authenticate tokens cred with
  | none => (.unauthorized, false)
  | some u => (.ok (BaseRecipeAttrViewSet.get_queryset db u), true)

/-- Modelled from the spec: DRF dispatch for `DELETE /recipes/{id}/`.
The row is resolved with `get_object`; a miss is 404 and nothing is
deleted.  The result carries the response, whether view code ran, and
the table after the request. -/
def recipe_destroy_dispatch (tokens : List (Nat × Nat)) (db : List Recipe)
    (cred : Option Nat) (pk : Nat) :
    HttpResponse Recipe × Bool × List Recipe :=
  match authenticate tokens cred with
  | none => (.unauthorized, false, db)
  | some u =>
    match RecipeViewSet.get_object db ⟨u, none, none⟩ pk with
    | .ok (some r) => (.noContent, true, db.filter (fun x => !(x.id == r.id)))
    | .ok none => (.notFound, true, db)
    | .error _ => (.serverError, true, db)

/-- Modelled from the spec: one descriptor step of the nested-relation
reconciler in the recipe serializer (serializers.py is not among the
sources).  The store is searched for an entity scoped to (owner, name);
a hit is reused untouched, a miss creates a fresh entity under the owner.
Returns the new store, the next fresh id, and the resolved entity. -/
def getOrCreateOne (store : List RecipeAttr) (owner : Nat) (nextId : Nat)
    (name : String) : List RecipeAttr × Nat × RecipeAttr :=
  match store.find? (fun t => t.user == owner && t.name == name) with
  | some t => (store, nextId, t)
  | none => (store ++ [⟨nextId, name, owner⟩], nextId + 1, ⟨nextId, name, owner⟩)

/-- Modelled from the spec: the reconciler run over a whole descriptor
list, left to right, threading the store and the fresh-id counter. -/
def getOrCreateAll (store : List RecipeAttr) (owner : Nat) (nextId : Nat) :
    List String → List RecipeAttr × Nat × List RecipeAttr
  | [] => (store, nextId, [])
  | n :: ns =>
    let r1 := getOrCreateOne store owner nextId n
    let r2 := getOrCreateAll r1.1 owner r1.2.1 ns
    (r2.1, r2.2.1, r1.2.2 :: r2.2.2)

/-! Helper lemmas about the embedded ORM operations. -/

theorem mem_insertDesc {α β : Type} [LinearOrder β] (key : α → β) (a x : α)
    (l : List α) : x ∈ insertDesc key a l ↔ x = a ∨ x ∈ l := by
  induction l with
  | nil => simp [insertDesc]
  | cons y ys ih =>
    by_cases h : key y ≤ key a
    · simp [insertDesc, h]
    · simp [insertDesc, h, ih]
      tauto

theorem pairwise_insertDesc {α β : Type} [LinearOrder β] (key : α → β) (a : α)
    {l : List α} (h : l.Pairwise (fun x y => key y ≤ key x)) :
    (insertDesc key a l).Pairwise (fun x y => key y ≤ key x) := by
  induction l with
  | nil => simp [insertDesc]
  | cons y ys ih =>
    rw [List.pairwise_cons] at h
    by_cases hy : key y ≤ key a
    · rw [insertDesc]
      simp only [hy, if_true]
      refine List.pairwise_cons.mpr ⟨?_, List.pairwise_cons.mpr ⟨h.1, h.2⟩⟩
      intro z hz
      rcases List.mem_cons.mp hz with rfl | hz
      · exact hy
      · exact le_trans (h.1 z hz) hy
    · rw [insertDesc]
      simp only [hy, if_false]
      refine List.pairwise_cons.mpr ⟨?_, ih h.2⟩
      intro z hz
      rcases (mem_insertDesc key a z ys).mp hz with rfl | hz
      · exact le_of_lt (lt_of_not_le hy)
      · exact h.1 z hz

theorem mem_orderByDesc {α β : Type} [LinearOrder β] (key : α → β) (x : α)
    (l : List α) : x ∈ orderByDesc key l ↔ x ∈ l := by
  induction l with
  | nil => simp [orderByDesc]
  | cons y ys ih => simp [orderByDesc, mem_insertDesc, ih]

theorem pairwise_orderByDesc {α β : Type} [LinearOrder β] (key : α → β)
    (l : List α) : (orderByDesc key l).Pairwise (fun x y => key y ≤ key x) := by
  induction l with
  | nil => simp [orderByDesc]
  | cons y ys ih => exact pairwise_insertDesc key y ih

theorem get_queryset_no_filters (db : List Recipe) (u : Nat) :
    ∃ l, RecipeViewSet.get_queryset db ⟨u, none, none⟩ = .ok l ∧
      (∀ r, r ∈ l ↔ r ∈ db ∧ r.user = u) ∧
      l.Pairwise (fun a b => b.id ≤ a.id) ∧ l.Nodup := by
  refine ⟨List.dedup (orderByDesc Recipe.id
      (db.filter (fun r => r.user == u))), rfl, ?_, ?_, ?_⟩
  · intro r
    simp only [List.mem_dedup, mem_orderByDesc, List.mem_filter, beq_iff_eq]
  · exact List.Pairwise.sublist (List.dedup_sublist _) (pairwise_orderByDesc _ _)
  · exact List.nodup_dedup _

/-! Claim theorems. -/

theorem getOrCreateOne_hit (store : List RecipeAttr) (owner nextId : Nat)
    (n : String) (h : ∃ t ∈ store, t.user = owner ∧ t.name = n) :
    ∃ t0, getOrCreateOne store owner nextId n = (store, nextId, t0) ∧
      t0 ∈ store ∧ t0.user = owner ∧ t0.name = n := by
  obtain ⟨t, htm, hu, hn⟩ := h
  have hfind : (store.find? (fun t => t.user == owner && t.name == n)).isSome := by
    rw [List.find?_isSome]
    exact ⟨t, htm, by simp [hu, hn]⟩
  obtain ⟨t0, ht0⟩ := Option.isSome_iff_exists.mp hfind
  have hp := List.find?_some ht0
  have hm := List.mem_of_find?_eq_some ht0
  simp only [Bool.and_eq_true, beq_iff_eq] at hp
  exact ⟨t0, by simp [getOrCreateOne, ht0], hm, hp.1, hp.2⟩

theorem user_of_mem_get_queryset {db : List Recipe} {req : RecipeListRequest}
    {l : List Recipe} (h : RecipeViewSet.get_queryset db req = .ok l)
    {r : Recipe} (hr : r ∈ l) : r.user = req.user := by
  rw [RecipeViewSet.get_queryset] at h
  split at h
  · cases h
  · split at h
    · cases h
    · injection h with h
      subst h
      have h3 := (mem_orderByDesc _ _ _).mp (List.mem_dedup.mp hr)
      simpa using (List.mem_filter.mp h3).2

theorem user_of_mem_attr_queryset {adb : List RecipeAttr} {u : Nat}
    {a : RecipeAttr} (h : a ∈ BaseRecipeAttrViewSet.get_queryset adb u) :
    a.user = u := by
  rw [BaseRecipeAttrViewSet.get_queryset] at h
  have h2 := (mem_orderByDesc _ _ _).mp h
  simpa using (List.mem_filter.mp h2).2

/-- Claim C1, code bug: the claimed OR/AND filter semantics never run.
At a well-formed filtered request (truthy `tags` and `ingredients`
parameters whose ids convert cleanly) the `filter(tags_id_in=...)` call
at views.py line 58 raises `FieldError` — the single-underscore keyword
is no valid lookup path — so the request is a server fault instead of the
filtered 200 result the claim and the repository's own filter tests
describe. -/
theorem recipe_list_filter_crashes :
    RecipeViewSet.get_queryset
        [⟨3, "a", 1, 1, "", "", 5, [1], [7]⟩,
         ⟨2, "b", 1, 1, "", "", 5, [2], [8]⟩,
         ⟨1, "c", 1, 1, "", "", 6, [1], [7]⟩]
        ⟨5, some "1,2", some "7"⟩ = .error .fieldError ∧
    RecipeViewSet.get_queryset
        [⟨3, "a", 1, 1, "", "", 5, [1], [7]⟩] ⟨5, none, some "7"⟩
      = .error .fieldError ∧
    recipe_list_dispatch [(1, 5)]
        [⟨3, "a", 1, 1, "", "", 5, [1], [7]⟩]
        (some 1) (some "1,2") (some "7") = (.serverError, true) :=
  ⟨rfl, rfl, rfl⟩

/-- Claim C2: list, retrieve, update and delete can only see rows owned
by the authenticated caller: every member of either queryset is owned by
the caller, and `get_object` (through which DRF routes retrieve, update
and delete) only ever yields an owned row, so a foreign row looks
nonexistent. -/
theorem operations_scoped_to_owner (db : List Recipe)
    (adb : List RecipeAttr) (req : RecipeListRequest) (pk : Nat) :
    (∀ l, RecipeViewSet.get_queryset db req = .ok l →
      ∀ r ∈ l, r.user = req.user) ∧
    (∀ r, RecipeViewSet.get_object db req pk = .ok (some r) →
      r.user = req.user) ∧
    (∀ a ∈ BaseRecipeAttrViewSet.get_queryset adb req.user,
      a.user = req.user) ∧
    (∀ a, BaseRecipeAttrViewSet.get_object adb req.user pk = some a →
      a.user = req.user) := by
  refine ⟨?_, ?_, ?_, ?_⟩
  · intro l hl r hr
    exact user_of_mem_get_queryset hl hr
  · intro r hr
    rw [RecipeViewSet.get_object] at hr
    split at hr
    · cases hr
    · next l hl =>
      injection hr with hr
      exact user_of_mem_get_queryset hl (List.mem_of_find?_eq_some hr)
  · intro a ha
    exact user_of_mem_attr_queryset ha
  · intro a ha
    exact user_of_mem_attr_queryset (List.mem_of_find?_eq_some ha)

/-- Witness for C2: a concrete owned recipe and tag are reported with the
caller as owner. -/
theorem operations_scoped_to_owner_witness :
    (⟨3, "t", 1, 1, "", "", 5, [], []⟩ : Recipe).user = 5 ∧
    (⟨4, "Vegan", 5⟩ : RecipeAttr).user = 5 :=
  ⟨(operations_scoped_to_owner [⟨3, "t", 1, 1, "", "", 5, [], []⟩] [] ⟨5, none, none⟩ 3).1
      [⟨3, "t", 1, 1, "", "", 5, [], []⟩] rfl _ (List.mem_singleton.mpr rfl),
   (operations_scoped_to_owner [] [⟨4, "Vegan", 5⟩] ⟨5, none, none⟩ 4).2.2.1
      ⟨4, "Vegan", 5⟩ (by simp [BaseRecipeAttrViewSet.get_queryset, orderByDesc, insertDesc])⟩

/-- Counterexample to claim C3: with two owned tags named "Apple" and
"Banana", the list endpoint returns "Banana" before "Apple", so the
result is not in ascending name order. -/
theorem attr_list_not_ascending_counterexample :
    ¬ (BaseRecipeAttrViewSet.get_queryset
        [⟨1, "Apple", 7⟩, ⟨2, "Banana", 7⟩] 7).Pairwise
      (fun a b => a.name ≤ b.name) := by
  intro h
  have he : BaseRecipeAttrViewSet.get_queryset
      [⟨1, "Apple", 7⟩, ⟨2, "Banana", 7⟩] 7
      = [⟨2, "Banana", 7⟩, ⟨1, "Apple", 7⟩] := rfl
  rw [he, List.pairwise_cons] at h
  have hle := h.1 ⟨1, "Apple", 7⟩ (List.mem_singleton.mpr rfl)
  rw [String.le_iff_toList_le] at hle
  revert hle
  decide

/-- Claim C3 as amended: the tag/ingredient list endpoint returns the
rows of the caller in descending name order (`order_by("-name")`). -/
theorem attr_list_name_descending (adb : List RecipeAttr) (u : Nat) :
    (BaseRecipeAttrViewSet.get_queryset adb u).Pairwise
      (fun a b => b.name ≤ a.name) := by
  have h := pairwise_orderByDesc (fun a : RecipeAttr => a.name.toList)
    (adb.filter (fun a => a.user == u))
  rw [BaseRecipeAttrViewSet.get_queryset]
  exact h.imp (fun hab => String.le_iff_toList_le.mpr hab)

/-- Claim C4, code bug: on the only reachable success path (no filter
parameters) the queryset is ordered by id descending and duplicate-free,
but the multi-filter-match scenario the claim quantifies over never
runs — a truthy `tags` parameter makes the `filter(tags_id_in=...)` call
raise `FieldError`, shown here on a recipe matching both supplied tag
ids. -/
theorem recipe_list_order_intact_but_filter_crashes :
    (∀ (db : List Recipe) (u : Nat), ∃ l,
      RecipeViewSet.get_queryset db ⟨u, none, none⟩ = .ok l ∧
      l.Pairwise (fun a b => b.id ≤ a.id) ∧ l.Nodup) ∧
    RecipeViewSet.get_queryset [⟨3, "a", 1, 1, "", "", 5, [1, 2], []⟩]
        ⟨5, some "1,2", none⟩ = .error .fieldError := by
  refine ⟨?_, rfl⟩
  intro db u
  obtain ⟨l, h1, _, h3, h4⟩ := get_queryset_no_filters db u
  exact ⟨l, h1, h3, h4⟩

/-- Claim C5: a created recipe is owned by the authenticated caller, no
matter what owner value the payload carried. -/
theorem perform_create_forces_owner (payload : RecipePayload)
    (requestUser newId : Nat) :
    (RecipeViewSet.perform_create payload requestUser newId).user
      = requestUser := rfl

/-- Claim C6: the list action serializes with the reduced summary
projection (no description, no tag/ingredient detail), while every other
action, retrieve included, uses the full detail projection with
description, tags and ingredients. -/
theorem list_uses_summary_projection (action : String) :
    RecipeViewSet.get_serializer_class "list"
        = SerializerClass.RecipeSerializer ∧
    "description" ∉ serializerFields SerializerClass.RecipeSerializer ∧
    "tags" ∉ serializerFields SerializerClass.RecipeSerializer ∧
    "ingredients" ∉ serializerFields SerializerClass.RecipeSerializer ∧
    (action ≠ "list" →
      RecipeViewSet.get_serializer_class action
          = SerializerClass.RecipeDetailSerializer ∧
      "description" ∈ serializerFields SerializerClass.RecipeDetailSerializer ∧
      "tags" ∈ serializerFields SerializerClass.RecipeDetailSerializer ∧
      "ingredients" ∈ serializerFields SerializerClass.RecipeDetailSerializer) := by
  refine ⟨rfl, by decide, by decide, by decide, ?_⟩
  intro ha
  have hb : (action == "list") = false := by
    simpa using ha
  rw [RecipeViewSet.get_serializer_class, hb]
  exact ⟨rfl, by decide, by decide, by decide⟩

/-- Witness for C6 at the retrieve action. -/
theorem list_uses_summary_projection_witness :
    RecipeViewSet.get_serializer_class "retrieve"
        = SerializerClass.RecipeDetailSerializer ∧
    "description" ∈ serializerFields SerializerClass.RecipeDetailSerializer ∧
    "tags" ∈ serializerFields SerializerClass.RecipeDetailSerializer ∧
    "ingredients" ∈ serializerFields SerializerClass.RecipeDetailSerializer :=
  (list_uses_summary_projection "retrieve").2.2.2.2 (by decide)

/-- Claim C7: a request whose credential does not resolve to a user is
answered 401 on the recipe, tag and ingredient endpoints, and no core
query or mutation logic runs: the ran-flag stays false and the destroy
route leaves the table untouched. -/
theorem unauthenticated_requests_get_401 (tokens : List (Nat × Nat))
    (db : List Recipe) (adb : List RecipeAttr) (cred : Option Nat)
    (tagsP ingredientsP : Option String) (pk : Nat)
    (h : authenticate tokens cred = none) :
    recipe_list_dispatch tokens db cred tagsP ingredientsP
        = (.unauthorized, false) ∧
    attr_list_dispatch tokens adb cred = (.unauthorized, false) ∧
    recipe_destroy_dispatch tokens db cred pk
        = (.unauthorized, false, db) := by
  refine ⟨?_, ?_, ?_⟩ <;>
    simp [recipe_list_dispatch, attr_list_dispatch,
      recipe_destroy_dispatch, h]

/-- Witness for C7: a credential value absent from the token table. -/
theorem unauthenticated_requests_get_401_witness :
    recipe_list_dispatch [(1, 5)] [] (some 2) none none
        = (.unauthorized, false) ∧
    attr_list_dispatch [(1, 5)] [] (some 2) = (.unauthorized, false) ∧
    recipe_destroy_dispatch [(1, 5)] [] (some 2) 9
        = (.unauthorized, false, []) :=
  unauthenticated_requests_get_401 [(1, 5)] [] [] (some 2) none none 9 rfl

/-- Claim C8: when every descriptor name already has an entity owned by
the caller, reconciliation reuses the existing entities: the store is
returned unchanged (no duplicate row created, no field mutated, the
owner's entity count the same) and the resolved references are existing
owned entities bearing the requested names. -/
theorem reconciler_reuses_existing_entities (store : List RecipeAttr)
    (owner nextId : Nat) (names : List String)
    (h : ∀ n ∈ names, ∃ t ∈ store, t.user = owner ∧ t.name = n) :
    (getOrCreateAll store owner nextId names).1 = store ∧
    ((getOrCreateAll store owner nextId names).1.filter
        (fun t => t.user == owner)).length
      = (store.filter (fun t => t.user == owner)).length ∧
    List.Forall₂ (fun t n => t ∈ store ∧ t.user = owner ∧ t.name = n)
      (getOrCreateAll store owner nextId names).2.2 names := by
  revert h
  induction names generalizing nextId with
  | nil =>
    intro _
    simp [getOrCreateAll]
  | cons n ns ih =>
    intro h
    have hn := h n (List.mem_cons_self n ns)
    obtain ⟨t0, heq, hmem, hu, hname⟩ :=
      getOrCreateOne_hit store owner nextId n hn
    have hns : ∀ m ∈ ns, ∃ t ∈ store, t.user = owner ∧ t.name = m :=
      fun m hm => h m (List.mem_cons_of_mem _ hm)
    obtain ⟨ih1, ih2, ih3⟩ := ih nextId hns
    refine ⟨?_, ?_, ?_⟩
    · simpa [getOrCreateAll, heq] using ih1
    · simp [getOrCreateAll, heq, ih1]
    · simp only [getOrCreateAll, heq]
      exact List.Forall₂.cons ⟨hmem, hu, hname⟩ ih3

/-- Witness for C8: reusing the one existing owned tag named "Indian". -/
theorem reconciler_reuses_existing_entities_witness :
    (getOrCreateAll [⟨1, "Indian", 5⟩] 5 2 ["Indian"]).1
        = [⟨1, "Indian", 5⟩] ∧
    ((getOrCreateAll [⟨1, "Indian", 5⟩] 5 2 ["Indian"]).1.filter
        (fun t => t.user == 5)).length
      = (([⟨1, "Indian", 5⟩] : List RecipeAttr).filter
        (fun t => t.user == 5)).length ∧
    List.Forall₂
      (fun t n => t ∈ [(⟨1, "Indian", 5⟩ : RecipeAttr)] ∧
        t.user = 5 ∧ t.name = n)
      (getOrCreateAll [⟨1, "Indian", 5⟩] 5 2 ["Indian"]).2.2 ["Indian"] :=
  reconciler_reuses_existing_entities [⟨1, "Indian", 5⟩] 5 2 ["Indian"]
    (by decide)

/-- Claim C9: a list request whose `tags` or `ingredients` parameter
holds a token that is not a decimal integer makes the queryset
construction raise the `int()` `ValueError`: an unhandled exception that
surfaces as a server fault, not as a 400 validation error. -/
theorem malformed_filter_param_is_server_fault :
    RecipeViewSet.get_queryset [] ⟨0, some "abc", none⟩
        = .error .valueError ∧
    RecipeViewSet.get_queryset [] ⟨0, some "1,", none⟩
        = .error .valueError ∧
    RecipeViewSet.get_queryset [] ⟨0, none, some "abc"⟩
        = .error .valueError ∧
    recipe_list_dispatch [(1, 5)] [] (some 1) (some "abc") none
        = (.serverError, true) :=
  ⟨rfl, rfl, rfl, rfl⟩

/-- Claim C10: a present-but-empty `tags` or `ingredients` parameter is
treated exactly as an absent one, because presence is tested by string
truthiness: the resulting queryset is identical and no error occurs. -/
theorem empty_filter_param_like_absent (db : List Recipe) (u : Nat)
    (p : Option String) :
    RecipeViewSet.get_queryset db ⟨u, some "", p⟩
        = RecipeViewSet.get_queryset db ⟨u, none, p⟩ ∧
    RecipeViewSet.get_queryset db ⟨u, p, some ""⟩
        = RecipeViewSet.get_queryset db ⟨u, p, none⟩ :=
  ⟨rfl, rfl⟩
